import Mathlib

/-!
Shallow embedding of the NASA Space Explorer gallery script
(`src/js/script.js`, duplicated in `src/unnamed/part_000`).

JavaScript values that the script reads from feed items are strings that
may be absent (`undefined`); they are modelled as `Option String`, where
`none` stands for an absent / non-string value.  JavaScript truthiness on
such values (`undefined` and `""` are falsy) and the `||` default operator
are modelled explicitly.  Template-literal interpolation of a possibly
undefined value renders the text `"undefined"`, as in JavaScript.
-/

namespace NasaExplorer

/-- One feed item as read by the script: `media_type`, `title`, `date`,
`url`, `hdurl`, `thumbnail_url`, `explanation`.  Every field may be absent. -/
structure Item where
  media_type : Option String
  title : Option String
  date : Option String
  url : Option String
  hdurl : Option String
  thumbnail_url : Option String
  explanation : Option String
deriving Repr, DecidableEq

/-- JavaScript truthiness of a possibly-absent string: `undefined` and the
empty string are falsy, every other string is truthy. -/
def jsTruthy (a : Option String) : Bool :=
  match a with
  | none => false
  | some s => s ≠ ""

/-- The JavaScript default operator `a || b` on a possibly-absent string
with a string default: yields the string if truthy, otherwise the default. -/
def jsOr (a : Option String) (b : String) : String :=
  match a with
  | none => b
  | some s => if s = "" then b else s

/-- Template-literal interpolation of a possibly-absent value:
an absent value is rendered as the text `undefined`. -/
def interp (a : Option String) : String :=
  match a with
  | none => "undefined"
  | some s => s

/-- The month abbreviation table of `formatDate`. -/
def monthAbbrevs : List String :=
  ["Jan", "Feb", "Mar", "Apr", "May", "Jun", "Jul", "Aug", "Sep", "Oct", "Nov", "Dec"]

/-- Decimal value of a digit string, as `parseInt(s, 10)` computes it on an
all-digit string. -/
def digitsToNat (cs : List Char) : Nat :=
  cs.foldl (fun n c => 10 * n + (c.toNat - 48)) 0

/-- The regex match `isoDate.match(/^(\d\x7b4\x7d)-(\d\x7b2\x7d)-(\d\x7b2\x7d)$/)`:
the whole string must be exactly ten characters, four digits, a dash, two
digits, a dash, two digits; on success the three captured groups are
returned. -/
def matchDate (s : String) : Option (String × String × String) :=
  match s.data with
  | [y1, y2, y3, y4, s1, m1, m2, s2, d1, d2] =>
    if y1.isDigit && y2.isDigit && y3.isDigit && y4.isDigit && s1 == '-' &&
       m1.isDigit && m2.isDigit && s2 == '-' && d1.isDigit && d2.isDigit then
      some (String.mk [y1, y2, y3, y4], String.mk [m1, m2], String.mk [d1, d2])
    else
      none
  | _ => none

/-- `formatDate(isoDate)`: empty string on a non-string input (`none`);
the input itself when it does not match the strict date pattern; otherwise
the month abbreviation at the clamped index `max 0 (min 11 (month - 1))`,
the day with leading zeros stripped, and the year group verbatim. -/
def formatDate : Option String → String
  | none => ""
  | some isoDate =>
    match matchDate isoDate with
    | none => isoDate
    | some (y, m, d) =>
      let monthName :=
        monthAbbrevs.getD (Int.toNat (max 0 (min 11 ((digitsToNat m.data : Int) - 1)))) "undefined"
      let day := toString (digitsToNat d.data)
      monthName ++ " " ++ day ++ ", " ++ y

/-! ## String scanning: `includes` and the embed-id regex -/

/-- `strStartsWith s p` holds when the pattern `p` is a prefix of `s`
(character lists). -/
def strStartsWith : List Char → List Char → Bool
  | _, [] => true
  | [], _ :: _ => false
  | c :: cs, p :: ps => c == p && strStartsWith cs ps

/-- Substring scan: does the pattern occur at some position of `s`? -/
def containsAux : List Char → List Char → Bool
  | [], pat => strStartsWith [] pat
  | c :: cs, pat => strStartsWith (c :: cs) pat || containsAux cs pat

/-- `s.includes(pat)` of JavaScript strings. -/
def containsSubstr (s pat : String) : Bool :=
  containsAux s.data pat.data

/-- The character class `[a-zA-Z0-9_-]` of the embed-id regex. -/
def isIdChar (c : Char) : Bool :=
  c.isAlpha || c.isDigit || c == '_' || c == '-'

/-- Left-to-right scan for the unanchored regex `embed\/([a-zA-Z0-9_-]+)`:
at the first position where `embed/` is followed by at least one id
character, return the greedy run of id characters; otherwise keep
scanning (as the regex engine does when the `+` cannot match). -/
def findEmbedId : List Char → Option (List Char)
  | [] => none
  | c :: cs =>
    if strStartsWith (c :: cs) "embed/".data then
      if ((cs.drop 5).takeWhile isIdChar).isEmpty then findEmbedId cs
      else some ((cs.drop 5).takeWhile isIdChar)
    else
      findEmbedId cs

/-- `item.url.match(/embed\/([a-zA-Z0-9_-]+)/)?.[1]` — the captured video
identifier, when the pattern matches. -/
def extractVideoId (s : String) : Option String :=
  (findEmbedId s.data).map String.mk

/-- `videoId ? \x60https://www.youtube.com/watch?v=$\x7bvideoId\x7d\x60 : item.url` —
the fallback watch-link target of the modal for an embed URL. -/
def watchUrl (url : String) : String :=
  match extractVideoId url with
  | some vid => "https://www.youtube.com/watch?v=" ++ vid
  | none => url

/-! ## Gallery rendering -/

/-- `item.url || item.hdurl` defaulting to the empty string — the image source of the grid card. -/
def gridImgSrc (item : Item) : String :=
  jsOr item.url (jsOr item.hdurl "")

/-- The visual preview block of a gallery card (`visualHTML` in
`renderGallery`): image / video-thumbnail / video placeholder /
unsupported-media placeholder, branching on `media_type`. -/
def renderCardVisual (item : Item) : String :=
  if item.media_type = some "image" then
    "\n\t\t\t\t<div class=\"image-wrapper\">\n\t\t\t\t\t<img src=\"" ++ gridImgSrc item ++
      "\" alt=\"" ++ interp item.title ++ "\" loading=\"lazy\" />\n\t\t\t\t</div>\n\t\t\t"
  else if item.media_type = some "video" then
    if jsTruthy item.thumbnail_url then
      "\n\t\t\t\t\t<div class=\"image-wrapper\">\n\t\t\t\t\t\t<img src=\"" ++ jsOr item.thumbnail_url "" ++
        "\" alt=\"" ++ interp item.title ++ " (video)\" loading=\"lazy\" />\n\t\t\t\t\t</div>\n\t\t\t\t"
    else
      "\n\t\t\t\t\t<div class=\"video-placeholder\">\n\t\t\t\t\t\t<p>🎬 Video</p>\n\t\t\t\t\t\t<p><small>Click to open</small></p>\n\t\t\t\t\t</div>\n\t\t\t\t"
  else
    "\n\t\t\t\t<div class=\"video-placeholder\">\n\t\t\t\t\t<p>Unsupported media</p>\n\t\t\t\t</div>\n\t\t\t"

/-- Everything of a gallery card after its `data-index` attribute. -/
def cardTail (item : Item) : String :=
  " tabindex=\"0\" aria-label=\"Open details for " ++ interp item.title ++
    " (" ++ formatDate item.date ++ ")\">\n\t\t\t\t" ++ renderCardVisual item ++
    "\n\t\t\t\t<p><strong>" ++ interp item.title ++ "</strong></p>\n\t\t\t\t<p>" ++
    formatDate item.date ++ "</p>\n\t\t\t</div>\n\t\t"

/-- One gallery card, as produced for `(item, index)` by the `items.map`
callback of `renderGallery`. -/
def renderCard (item : Item) (index : Nat) : String :=
  "\n\t\t\t<div class=\"gallery-item\" " ++ ("data-index=\"" ++ toString index ++ "\"") ++
    cardTail item

/-- The `items.map((item, index) => ...)` traversal of `renderGallery`,
carrying the running index. -/
def renderCardsFrom (index : Nat) : List Item → List String
  | [] => []
  | item :: rest => renderCard item index :: renderCardsFrom (index + 1) rest

/-- The list of card fragments built by `renderGallery` for the item list. -/
def renderGalleryCards (items : List Item) : List String :=
  renderCardsFrom 0 items

/-- `renderGallery(items)` — the HTML assigned to `gallery.innerHTML`:
all cards joined with the empty separator. -/
def renderGallery (items : List Item) : String :=
  String.join (renderGalleryCards items)

/-! ## Modal -/

/-- `item.title` defaulting to `Untitled` — the modal heading text. -/
def modalTitle (item : Item) : String :=
  jsOr item.title "Untitled"

/-- `formatDate` of `item.date` defaulting to the empty string — the modal date line. -/
def modalDate (item : Item) : String :=
  formatDate (some (jsOr item.date ""))

/-- `item.explanation` defaulting to the empty string — the modal explanation text. -/
def modalExplanation (item : Item) : String :=
  jsOr item.explanation ""

/-- `item.hdurl || item.url` defaulting to the empty string — the large image source of the modal. -/
def modalBigSrc (item : Item) : String :=
  jsOr item.hdurl (jsOr item.url "")

/-- The embed branch of the video media block of the modal: an iframe for the
embed URL plus the fallback watch link targeting `watchUrl url`. -/
def videoEmbedHTML (url title : String) : String :=
  "\n\t\t\t\t<div class=\"video-embed\">\n\t\t\t\t\t<iframe src=\"" ++ url ++
    "\" title=\"" ++ title ++ "\" frameborder=\"0\" allowfullscreen></iframe>\n\t\t\t\t</div>\n\t\t\t\t<p class=\"video-fallback\">\n\t\t\t\t\t<small>If the video doesn\x27t load, <a href=\"" ++
    watchUrl url ++ "\" target=\"_blank\" rel=\"noopener\">watch it on YouTube</a></small>\n\t\t\t\t</p>\n\t\t\t"

/-- `mediaHTML` of `openModal`: the modal media block chosen by media type. -/
def modalMediaHTML (item : Item) : String :=
  if item.media_type = some "image" then
    "<img src=\"" ++ modalBigSrc item ++ "\" alt=\"" ++ modalTitle item ++ "\" />"
  else if item.media_type = some "video" then
    if jsTruthy item.url && containsSubstr (jsOr item.url "") "embed" then
      videoEmbedHTML (jsOr item.url "") (modalTitle item)
    else if jsTruthy item.url then
      "\n\t\t\t\t<p>\n\t\t\t\t\tThis is a video. Watch here:\n\t\t\t\t\t<a href=\"" ++ jsOr item.url "" ++
        "\" target=\"_blank\" rel=\"noopener\">" ++ jsOr item.url "" ++ "</a>\n\t\t\t\t</p>\n\t\t\t"
    else
      "<p>Video unavailable.</p>"
  else
    "<p>Unsupported media type.</p>"

/-- The HTML assigned to `modalInner.innerHTML` by `openModal(item)`. -/
def modalInnerHTML (item : Item) : String :=
  "\n\t\t<h2>" ++ modalTitle item ++ "</h2>\n\t\t<p class=\"modal-date\">" ++ modalDate item ++
    "</p>\n\t\t<div class=\"modal-media\">" ++ modalMediaHTML item ++
    "</div>\n\t\t<p class=\"modal-explanation\">" ++ modalExplanation item ++ "</p>\n\t"

/-! ## Fetch-and-render -/

/-- Outcome of `res.json()` followed by the array check: the parse may
reject with a message, or parse to a non-array value, or parse to an
array of feed items. -/
inductive JsonResult
  | failure (msg : String)
  | notArray
  | arrayOf (items : List Item)
deriving Repr, DecidableEq

/-- An HTTP response: its status code and what its body yields. -/
structure HttpResponse where
  status : Nat
  json : JsonResult
deriving Repr, DecidableEq

/-- `res.ok` — status in the inclusive range 200–299. -/
def HttpResponse.ok (r : HttpResponse) : Bool :=
  200 ≤ r.status && r.status < 300

/-- What `await fetch(...)` produced: a rejection (connectivity failure)
or a response. -/
inductive FetchOutcome
  | transportError (msg : String)
  | got (resp : HttpResponse)
deriving Repr, DecidableEq

/-- The mutable state the script keeps: the in-memory `apodItems` list and
the `innerHTML` of the gallery container. -/
structure AppState where
  apodItems : List Item
  galleryHTML : String
deriving Repr, DecidableEq

/-- The loading placeholder `showLoading` writes into the gallery. -/
def loadingHTML : String :=
  "\n\t\t<div class=\"placeholder\">\n\t\t\t<div class=\"placeholder-icon\">🔄</div>\n\t\t\t<p>Loading space photos…</p>\n\t\t</div>\n\t"

/-- The error placeholder of the `catch` branch of `fetchAndRender`,
around `err.message`. -/
def errorHTML (msg : String) : String :=
  "\n\t\t\t<div class=\"placeholder\">\n\t\t\t\t<div class=\"placeholder-icon\">⚠️</div>\n\t\t\t\t<p>Sorry, we couldn’t load space photos. Please try again.</p>\n\t\t\t\t<p><small>" ++
    msg ++ "</small></p>\n\t\t\t</div>\n\t\t"

/-- `fetchAndRender` as a state transition: given the state before the
call and the outcome of the fetch, the state after the call.  A non-ok
status throws `Network error: $\x7bres.status\x7d`; a non-array body throws the
format error; every throw is caught and rendered through `errorHTML`,
leaving `apodItems` untouched; only a parsed array is stored and rendered. -/
def fetchAndRender (st : AppState) (outcome : FetchOutcome) : AppState :=
  match outcome with
  | .transportError msg => { st with galleryHTML := errorHTML msg }
  | .got resp =>
    if resp.ok then
      match resp.json with
      | .failure msg => { st with galleryHTML := errorHTML msg }
      | .notArray =>
        { st with galleryHTML := errorHTML "Unexpected data format (expected an array)." }
      | .arrayOf data =>
        { apodItems := data, galleryHTML := renderGallery data }
    else
      { st with galleryHTML := errorHTML ("Network error: " ++ toString resp.status) }

/-! ## Card selection dispatch -/

/-- A JavaScript number as produced by `parseInt`: `NaN` or an integer. -/
inductive JsNumber
  | nan
  | int (i : Int)
deriving Repr, DecidableEq

/-- `parseInt(s, 10)`: skip leading whitespace, read an optional sign and
then leading decimal digits; `NaN` when no digit follows. -/
def jsParseInt (s : String) : JsNumber :=
  let cs := s.data.dropWhile (fun c => c == ' ' || c == '\t' || c == '\n' || c == '\r')
  match cs with
  | '-' :: rest =>
    let ds := rest.takeWhile Char.isDigit
    if ds.isEmpty then .nan else .int (-(digitsToNat ds : Int))
  | '+' :: rest =>
    let ds := rest.takeWhile Char.isDigit
    if ds.isEmpty then .nan else .int (digitsToNat ds)
  | rest =>
    let ds := rest.takeWhile Char.isDigit
    if ds.isEmpty then .nan else .int (digitsToNat ds)

/-- JavaScript array indexing `apodItems[index]` with a `parseInt` result:
`undefined` (`none`) on `NaN`, a negative index, or an index past the end. -/
def jsIndex (items : List Item) (n : JsNumber) : Option Item :=
  match n with
  | .nan => none
  | .int i => if i < 0 then none else items.get? i.toNat

/-- The card a click or keydown event resolved to via
`e.target.closest` on the gallery-item class: its `data-index` attribute value. -/
structure CardTarget where
  dataIndex : String
deriving Repr, DecidableEq

/-- The gallery click / Enter-keydown handler, reduced to its observable
effect: the item `openModal` is invoked with, or `none` when the event hit
no card or the index resolved to no item (`if (item) openModal(item)`). -/
def galleryActivate (apodItems : List Item) (target : Option CardTarget) : Option Item :=
  match target with
  | none => none
  | some card => jsIndex apodItems (jsParseInt card.dataIndex)

/-! ## Lemmas about the substring scan -/

theorem strStartsWith_nil (s : List Char) : strStartsWith s [] = true := by
  cases s <;> rfl

theorem strStartsWith_refl (s : List Char) : strStartsWith s s = true := by
  induction s with
  | nil => rfl
  | cons c cs ih => simp [strStartsWith, ih]

theorem strStartsWith_append (p s ys : List Char) (h : strStartsWith s p = true) :
    strStartsWith (s ++ ys) p = true := by
  induction p generalizing s with
  | nil => exact strStartsWith_nil _
  | cons q ps ih =>
    cases s with
    | nil => simp [strStartsWith] at h
    | cons c cs =>
      simp only [strStartsWith, Bool.and_eq_true] at h
      simp only [List.cons_append, strStartsWith, Bool.and_eq_true]
      exact ⟨h.1, ih cs h.2⟩

theorem containsAux_of_startsWith (s p : List Char) (h : strStartsWith s p = true) :
    containsAux s p = true := by
  cases s with
  | nil => simpa [containsAux] using h
  | cons c cs => simp [containsAux, h]

theorem containsAux_append_right (p xs ys : List Char) (h : containsAux ys p = true) :
    containsAux (xs ++ ys) p = true := by
  induction xs with
  | nil => simpa using h
  | cons x xs ih =>
    simp only [List.cons_append, containsAux, Bool.or_eq_true]
    exact Or.inr ih

theorem containsAux_append_left (p xs ys : List Char) (h : containsAux xs p = true) :
    containsAux (xs ++ ys) p = true := by
  induction xs with
  | nil =>
    cases p with
    | nil => exact containsAux_of_startsWith _ _ (strStartsWith_nil _)
    | cons q ps => simp [containsAux, strStartsWith] at h
  | cons x xs ih =>
    simp only [containsAux, Bool.or_eq_true] at h
    simp only [List.cons_append, containsAux, Bool.or_eq_true]
    cases h with
    | inl hsw =>
      exact Or.inl (by simpa [List.cons_append] using strStartsWith_append p (x :: xs) ys hsw)
    | inr hc => exact Or.inr (ih hc)

theorem containsSubstr_refl (s : String) : containsSubstr s s = true :=
  containsAux_of_startsWith _ _ (strStartsWith_refl s.data)

theorem containsSubstr_appL (a b pat : String) (h : containsSubstr a pat = true) :
    containsSubstr (a ++ b) pat = true := by
  unfold containsSubstr at h ⊢
  have hd : (a ++ b).data = a.data ++ b.data := rfl
  rw [hd]
  exact containsAux_append_left _ _ _ h

theorem containsSubstr_appR (a b pat : String) (h : containsSubstr b pat = true) :
    containsSubstr (a ++ b) pat = true := by
  unfold containsSubstr at h ⊢
  have hd : (a ++ b).data = a.data ++ b.data := rfl
  rw [hd]
  exact containsAux_append_right _ _ _ h

theorem strStartsWith_eq_append (p s : List Char) (h : strStartsWith s p = true) :
    ∃ t, s = p ++ t := by
  induction p generalizing s with
  | nil => exact ⟨s, rfl⟩
  | cons q ps ih =>
    cases s with
    | nil => simp [strStartsWith] at h
    | cons c cs =>
      simp only [strStartsWith, Bool.and_eq_true, beq_iff_eq] at h
      obtain ⟨t, ht⟩ := ih cs h.2
      exact ⟨t, by simp [h.1, ht]⟩

/-- What a successful embed-id scan guarantees: the captured run is
nonempty, consists of id characters only, and occurs in the scanned text
right after an occurrence of `embed/`. -/
theorem findEmbedId_spec (l run : List Char) (h : findEmbedId l = some run) :
    run ≠ [] ∧ run.all isIdChar = true ∧
    containsAux l ("embed/".data ++ run) = true := by
  induction l with
  | nil => simp [findEmbedId] at h
  | cons c cs ih =>
    rw [findEmbedId] at h
    split at h
    · rename_i hsw
      split at h
      · have hprops := ih h
        refine ⟨hprops.1, hprops.2.1, ?_⟩
        simp only [containsAux, Bool.or_eq_true]
        exact Or.inr hprops.2.2
      · rename_i hrun
        have hrv : run = (cs.drop 5).takeWhile isIdChar := by
          injection h with h'; exact h'.symm
        refine ⟨?_, ?_, ?_⟩
        · intro hcon
          rw [hrv] at hcon
          simp [hcon] at hrun
        · rw [hrv]
          simp only [List.all_eq_true]
          intro x hx
          exact List.mem_takeWhile_imp hx
        · obtain ⟨t, ht⟩ := strStartsWith_eq_append _ _ hsw
          have hdrop : t = (c :: cs).drop 6 := by
            rw [ht]; simp
          have hsplit : t = run ++ t.dropWhile isIdChar := by
            rw [hrv, hdrop]
            show cs.drop 5 = _
            nth_rewrite 1 [← List.takeWhile_append_dropWhile (p := isIdChar) (l := cs.drop 5)]
            rfl
          apply containsAux_of_startsWith
          rw [ht, hsplit, ← List.append_assoc]
          exact strStartsWith_append _ _ _ (strStartsWith_refl _)
    · have hprops := ih h
      refine ⟨hprops.1, hprops.2.1, ?_⟩
      simp only [containsAux, Bool.or_eq_true]
      exact Or.inr hprops.2.2

/-! ## Lemmas about JavaScript truthiness defaults -/

theorem jsOr_of_not_truthy (a : Option String) (b : String) (h : jsTruthy a = false) :
    jsOr a b = b := by
  cases a with
  | none => rfl
  | some s =>
    have hs : s = "" := by
      by_contra hne
      simp [jsTruthy, hne] at h
    simp [jsOr, hs]

theorem jsOr_of_some_ne (s : String) (b : String) (h : s ≠ "") :
    jsOr (some s) b = s := by
  simp [jsOr, h]

/-! ## Lemmas about the card list -/

theorem renderCardsFrom_length (k : Nat) (items : List Item) :
    (renderCardsFrom k items).length = items.length := by
  induction items generalizing k with
  | nil => rfl
  | cons item rest ih => simp [renderCardsFrom, ih]

theorem renderCardsFrom_getElem? (k i : Nat) (items : List Item) :
    (renderCardsFrom k items)[i]? = (items[i]?).map (fun item => renderCard item (k + i)) := by
  induction items generalizing k i with
  | nil => simp [renderCardsFrom]
  | cons item rest ih =>
    cases i with
    | zero => simp [renderCardsFrom]
    | succ j =>
      simp only [renderCardsFrom, List.getElem?_cons_succ, ih (k + 1) j]
      have : k + 1 + j = k + (j + 1) := by omega
      rw [this]

/-- The branch of `formatDate` taken on a string that matches the strict
date pattern, characterised over the ten characters of the input. -/
theorem formatDate_chars (y1 y2 y3 y4 m1 m2 d1 d2 : Char)
    (hy1 : y1.isDigit = true) (hy2 : y2.isDigit = true) (hy3 : y3.isDigit = true)
    (hy4 : y4.isDigit = true) (hm1 : m1.isDigit = true) (hm2 : m2.isDigit = true)
    (hd1 : d1.isDigit = true) (hd2 : d2.isDigit = true) :
    formatDate (some (String.mk [y1, y2, y3, y4, '-', m1, m2, '-', d1, d2])) =
      monthAbbrevs.getD
        (Int.toNat (max 0 (min 11 (((10 * (m1.toNat - 48) + (m2.toNat - 48) : Nat) : Int) - 1))))
        "undefined"
      ++ " " ++ toString (10 * (d1.toNat - 48) + (d2.toNat - 48)) ++ ", "
      ++ String.mk [y1, y2, y3, y4] := by
  simp [formatDate, matchDate, hy1, hy2, hy3, hy4, hm1, hm2, hd1, hd2, digitsToNat, List.foldl]

/-! ## Sample items used by the witnesses -/

def sampleImage : Item :=
  ⟨some "image", some "A", some "2025-10-27", some "a.jpg", some "a-hd.jpg", none, some "ea"⟩

def sampleEmbed : Item :=
  ⟨some "video", some "B", some "2025-10-28", some "https://www.youtube.com/embed/abc123",
    none, some "t.jpg", some "eb"⟩

def sampleEmbedNoId : Item :=
  ⟨some "video", some "D", none, some "https://www.youtube.com/embed/", none, none, none⟩

def sampleOther : Item :=
  ⟨some "asteroid", some "C", some "2025-10-29", none, none, none, none⟩

def sampleEmptyTitle : Item :=
  ⟨some "image", some "", some "2025-10-30", some "u.jpg", none, none, some "A real explanation"⟩

/-! ## The claims -/

/-- C1: for every string matching the strict date pattern, `formatDate`
returns the month abbreviation taken from the fixed 12-name table at the
clamped index max 0 (min 11 (month - 1)), the day printed with no leading
zero (the decimal rendering of its parsed value), a comma, and the year;
in particular format of 2025-10-27 is Oct 27, 2025 and format of
2025-01-05 is Jan 5, 2025. -/
theorem claim1_formatDate_valid_dates :
    (∀ y1 y2 y3 y4 m1 m2 d1 d2 : Char,
      y1.isDigit = true → y2.isDigit = true → y3.isDigit = true → y4.isDigit = true →
      m1.isDigit = true → m2.isDigit = true → d1.isDigit = true → d2.isDigit = true →
      formatDate (some (String.mk [y1, y2, y3, y4, '-', m1, m2, '-', d1, d2])) =
        monthAbbrevs.getD
          (Int.toNat (max 0 (min 11 (((10 * (m1.toNat - 48) + (m2.toNat - 48) : Nat) : Int) - 1))))
          "undefined"
        ++ " " ++ toString (10 * (d1.toNat - 48) + (d2.toNat - 48)) ++ ", "
        ++ String.mk [y1, y2, y3, y4]) ∧
    formatDate (some "2025-10-27") = "Oct 27, 2025" ∧
    formatDate (some "2025-01-05") = "Jan 5, 2025" :=
  ⟨fun y1 y2 y3 y4 m1 m2 d1 d2 h1 h2 h3 h4 h5 h6 h7 h8 =>
    formatDate_chars y1 y2 y3 y4 m1 m2 d1 d2 h1 h2 h3 h4 h5 h6 h7 h8,
   by decide, by decide⟩

theorem claim1_witness :
    formatDate (some (String.mk ['2','0','2','5','-','1','0','-','2','7'])) =
      monthAbbrevs.getD
        (Int.toNat (max 0 (min 11 (((10 * ('1'.toNat - 48) + ('0'.toNat - 48) : Nat) : Int) - 1))))
        "undefined"
      ++ " " ++ toString (10 * ('2'.toNat - 48) + ('7'.toNat - 48)) ++ ", "
      ++ String.mk ['2','0','2','5'] :=
  claim1_formatDate_valid_dates.1 '2' '0' '2' '5' '1' '0' '2' '7'
    (by decide) (by decide) (by decide) (by decide) (by decide) (by decide) (by decide) (by decide)

/-- C2: `formatDate` never fails: a non-string input yields the empty
string, and a string input that does not match the strict date pattern is
returned unchanged (the function is total, so no input can make it
throw); e.g. 2025/10/27 passes through unchanged. -/
theorem claim2_formatDate_never_fails :
    formatDate none = "" ∧
    (∀ s : String, matchDate s = none → formatDate (some s) = s) ∧
    formatDate (some "2025/10/27") = "2025/10/27" := by
  refine ⟨rfl, fun s h => ?_, by decide⟩
  simp [formatDate, h]

theorem claim2_witness :
    matchDate "not-a-date!" = none ∧ formatDate (some "not-a-date!") = "not-a-date!" :=
  ⟨by decide, claim2_formatDate_never_fails.2.1 "not-a-date!" (by decide)⟩

/-- C9: on a string matching the strict date pattern, `formatDate`
reproduces the year field verbatim as the original four captured digit
characters, after the final comma of the output. -/
theorem claim9_formatDate_year_verbatim :
    ∀ y1 y2 y3 y4 m1 m2 d1 d2 : Char,
      y1.isDigit = true → y2.isDigit = true → y3.isDigit = true → y4.isDigit = true →
      m1.isDigit = true → m2.isDigit = true → d1.isDigit = true → d2.isDigit = true →
      ∃ pre : String,
        formatDate (some (String.mk [y1, y2, y3, y4, '-', m1, m2, '-', d1, d2])) =
          pre ++ ", " ++ String.mk [y1, y2, y3, y4] := by
  intro y1 y2 y3 y4 m1 m2 d1 d2 h1 h2 h3 h4 h5 h6 h7 h8
  exact ⟨monthAbbrevs.getD
      (Int.toNat (max 0 (min 11 (((10 * (m1.toNat - 48) + (m2.toNat - 48) : Nat) : Int) - 1))))
      "undefined" ++ " " ++ toString (10 * (d1.toNat - 48) + (d2.toNat - 48)),
    formatDate_chars y1 y2 y3 y4 m1 m2 d1 d2 h1 h2 h3 h4 h5 h6 h7 h8⟩

theorem claim9_witness :
    (∃ pre : String,
      formatDate (some (String.mk ['0','0','4','2','-','0','1','-','0','7'])) =
        pre ++ ", " ++ String.mk ['0','0','4','2']) ∧
    formatDate (some "0042-01-07") = "Jan 7, 0042" :=
  ⟨claim9_formatDate_year_verbatim '0' '0' '4' '2' '0' '1' '0' '7'
      (by decide) (by decide) (by decide) (by decide) (by decide) (by decide) (by decide) (by decide),
   by decide⟩

/-- C4: for an image item, the grid card renders an image whose source is
`gridImgSrc` (standard URL preferred over high-res) and the modal renders
an image whose source is `modalBigSrc` (high-res preferred over
standard); with both URLs present and truthy the grid uses the standard
one and the modal the high-res one; when the preferred URL is falsy the
other is used; when both are falsy the source is the empty string. -/
theorem claim4_image_src_preference (item : Item) (hm : item.media_type = some "image") :
    renderCardVisual item =
      "\n\t\t\t\t<div class=\"image-wrapper\">\n\t\t\t\t\t<img src=\"" ++ gridImgSrc item ++
        "\" alt=\"" ++ interp item.title ++ "\" loading=\"lazy\" />\n\t\t\t\t</div>\n\t\t\t" ∧
    modalMediaHTML item =
      "<img src=\"" ++ modalBigSrc item ++ "\" alt=\"" ++ modalTitle item ++ "\" />" ∧
    (∀ u hd, item.url = some u → u ≠ "" → item.hdurl = some hd → hd ≠ "" →
      gridImgSrc item = u ∧ modalBigSrc item = hd) ∧
    (jsTruthy item.url = false → ∀ hd, item.hdurl = some hd → hd ≠ "" → gridImgSrc item = hd) ∧
    (jsTruthy item.hdurl = false → ∀ u, item.url = some u → u ≠ "" → modalBigSrc item = u) ∧
    (jsTruthy item.url = false → jsTruthy item.hdurl = false →
      gridImgSrc item = "" ∧ modalBigSrc item = "") := by
  refine ⟨by simp [renderCardVisual, hm], by simp [modalMediaHTML, hm], ?_, ?_, ?_, ?_⟩
  · intro u hd hu hune hhd hhdne
    rw [gridImgSrc, modalBigSrc, hu, hhd, jsOr_of_some_ne _ _ hune, jsOr_of_some_ne _ _ hhdne]
    exact ⟨rfl, rfl⟩
  · intro hu hd hhd hhdne
    rw [gridImgSrc, jsOr_of_not_truthy _ _ hu, hhd, jsOr_of_some_ne _ _ hhdne]
  · intro hhd u hu hune
    rw [modalBigSrc, jsOr_of_not_truthy _ _ hhd, hu, jsOr_of_some_ne _ _ hune]
  · intro hu hhd
    rw [gridImgSrc, modalBigSrc, jsOr_of_not_truthy _ _ hu, jsOr_of_not_truthy _ _ hhd,
      jsOr_of_not_truthy _ _ hu, jsOr_of_not_truthy _ _ hhd]
    exact ⟨rfl, rfl⟩

theorem claim4_witness :
    gridImgSrc sampleImage = "a.jpg" ∧ modalBigSrc sampleImage = "a-hd.jpg" :=
  (claim4_image_src_preference sampleImage rfl).2.2.1 "a.jpg" "a-hd.jpg"
    rfl (by decide) rfl (by decide)

/-- C7: an item whose media type is neither image nor video gets the
Unsupported media placeholder as its card visual (and hence in every grid
card built for it, at any index) and the Unsupported media type message
as its modal media block. -/
theorem claim7_unsupported_media (item : Item) (h1 : item.media_type ≠ some "image")
    (h2 : item.media_type ≠ some "video") :
    renderCardVisual item =
      "\n\t\t\t\t<div class=\"video-placeholder\">\n\t\t\t\t\t<p>Unsupported media</p>\n\t\t\t\t</div>\n\t\t\t" ∧
    containsSubstr (renderCardVisual item) "Unsupported media" = true ∧
    (∀ index : Nat, containsSubstr (renderCard item index) "Unsupported media" = true) ∧
    modalMediaHTML item = "<p>Unsupported media type.</p>" ∧
    containsSubstr (modalInnerHTML item) "Unsupported media" = true := by
  have hvis : renderCardVisual item =
      "\n\t\t\t\t<div class=\"video-placeholder\">\n\t\t\t\t\t<p>Unsupported media</p>\n\t\t\t\t</div>\n\t\t\t" := by
    simp [renderCardVisual, h1, h2]
  have hmod : modalMediaHTML item = "<p>Unsupported media type.</p>" := by
    simp [modalMediaHTML, h1, h2]
  refine ⟨hvis, by rw [hvis]; decide, ?_, hmod, ?_⟩
  · intro index
    rw [renderCard]
    apply containsSubstr_appR
    rw [cardTail]
    apply containsSubstr_appL
    apply containsSubstr_appL
    apply containsSubstr_appL
    apply containsSubstr_appL
    apply containsSubstr_appL
    apply containsSubstr_appR
    rw [hvis]; decide
  · rw [modalInnerHTML]
    apply containsSubstr_appL
    apply containsSubstr_appL
    apply containsSubstr_appL
    apply containsSubstr_appR
    rw [hmod]; decide

theorem claim7_witness :
    containsSubstr (renderCardVisual sampleOther) "Unsupported media" = true ∧
    containsSubstr (modalInnerHTML sampleOther) "Unsupported media" = true := by
  have h := claim7_unsupported_media sampleOther (by decide) (by decide)
  exact ⟨h.2.1, h.2.2.2.2⟩

/-- C10: two independent facts about every item opened in the modal:
whenever its title is falsy — absent or the empty string — the modal
heading shows the fallback text Untitled, whatever the other fields
hold; and whenever its explanation is falsy it renders as the empty
string, whatever the title is. -/
theorem claim10_modal_title_fallback (item : Item) :
    (jsTruthy item.title = false →
      modalTitle item = "Untitled" ∧
      containsSubstr (modalInnerHTML item) "<h2>Untitled</h2>" = true) ∧
    (jsTruthy item.explanation = false → modalExplanation item = "") := by
  constructor
  · intro ht
    have h1 : modalTitle item = "Untitled" := jsOr_of_not_truthy _ _ ht
    refine ⟨h1, ?_⟩
    rw [modalInnerHTML]
    apply containsSubstr_appL
    apply containsSubstr_appL
    apply containsSubstr_appL
    apply containsSubstr_appL
    apply containsSubstr_appL
    apply containsSubstr_appL
    rw [h1]
    decide
  · intro he
    exact jsOr_of_not_truthy _ _ he

theorem claim10_witness :
    (modalTitle sampleEmptyTitle = "Untitled" ∧
      containsSubstr (modalInnerHTML sampleEmptyTitle) "<h2>Untitled</h2>" = true ∧
      modalExplanation sampleEmptyTitle = "A real explanation") ∧
    (modalExplanation sampleOther = "" ∧ modalTitle sampleOther = "C") :=
  ⟨⟨((claim10_modal_title_fallback sampleEmptyTitle).1 (by decide)).1,
    ((claim10_modal_title_fallback sampleEmptyTitle).1 (by decide)).2, by decide⟩,
   (claim10_modal_title_fallback sampleOther).2 (by decide), by decide⟩

/-- C3: when the fetch response has a non-success status, the gallery is
set to the error state, whose text contains the decimal status code, and
the in-memory item list is exactly what it was before the call; moreover
the item list changes only on an outcome whose response is ok and whose
body parsed to an array, and then it becomes exactly that array. -/
theorem claim3_fetch_error_state (st : AppState) (resp : HttpResponse)
    (hok : resp.ok = false) :
    (fetchAndRender st (.got resp)).apodItems = st.apodItems ∧
    containsSubstr (fetchAndRender st (.got resp)).galleryHTML (toString resp.status) = true ∧
    (∀ o : FetchOutcome, (fetchAndRender st o).apodItems ≠ st.apodItems →
      ∃ r items, o = .got r ∧ r.ok = true ∧ r.json = .arrayOf items ∧
        (fetchAndRender st o).apodItems = items) := by
  refine ⟨by simp [fetchAndRender, hok], ?_, ?_⟩
  · simp only [fetchAndRender, hok, Bool.false_eq_true, if_false]
    rw [errorHTML]
    apply containsSubstr_appL
    apply containsSubstr_appR
    apply containsSubstr_appR
    exact containsSubstr_refl _
  · intro o hne
    cases o with
    | transportError msg => simp [fetchAndRender] at hne
    | got r =>
      cases hro : r.ok with
      | false => simp [fetchAndRender, hro] at hne
      | true =>
        cases hrj : r.json with
        | failure msg => simp [fetchAndRender, hro, hrj] at hne
        | notArray => simp [fetchAndRender, hro, hrj] at hne
        | arrayOf items =>
          exact ⟨r, items, rfl, hro, hrj, by simp [fetchAndRender, hro, hrj]⟩

theorem claim3_witness :
    (fetchAndRender ⟨[], ""⟩ (.got ⟨500, .notArray⟩)).apodItems = [] ∧
    containsSubstr (fetchAndRender ⟨[], ""⟩ (.got ⟨500, .notArray⟩)).galleryHTML "500" = true := by
  have h := claim3_fetch_error_state ⟨[], ""⟩ ⟨500, .notArray⟩ (by decide)
  exact ⟨h.1, h.2.1⟩

/-- C5: a successful fetch of n items stores exactly that list, renders
the join of one card per item in list order, and the card at position i
is the card rendered for the item at position i with substring
data-index equal to i in quotes. -/
theorem claim5_cards_one_per_item (st : AppState) (resp : HttpResponse) (items : List Item)
    (hok : resp.ok = true) (hj : resp.json = .arrayOf items) :
    (fetchAndRender st (.got resp)).apodItems = items ∧
    (fetchAndRender st (.got resp)).galleryHTML = String.join (renderGalleryCards items) ∧
    (renderGalleryCards items).length = items.length ∧
    (∀ i item, items[i]? = some item →
      (renderGalleryCards items)[i]? = some (renderCard item i) ∧
      containsSubstr (renderCard item i) ("data-index=\"" ++ toString i ++ "\"") = true) := by
  refine ⟨by simp [fetchAndRender, hok, hj], by simp [fetchAndRender, hok, hj, renderGallery],
    renderCardsFrom_length 0 items, ?_⟩
  intro i item hget
  constructor
  · rw [renderGalleryCards, renderCardsFrom_getElem?, hget]
    simp
  · rw [renderCard]
    apply containsSubstr_appL
    apply containsSubstr_appR
    exact containsSubstr_refl _

theorem claim5_witness :
    (fetchAndRender ⟨[], ""⟩
        (.got ⟨200, .arrayOf [sampleImage, sampleEmbed, sampleOther]⟩)).apodItems =
      [sampleImage, sampleEmbed, sampleOther] ∧
    (renderGalleryCards [sampleImage, sampleEmbed, sampleOther]).length = 3 ∧
    (renderGalleryCards [sampleImage, sampleEmbed, sampleOther])[1]? =
      some (renderCard sampleEmbed 1) ∧
    containsSubstr (renderCard sampleEmbed 1) ("data-index=\"" ++ toString 1 ++ "\"") = true := by
  have h := claim5_cards_one_per_item ⟨[], ""⟩
    ⟨200, .arrayOf [sampleImage, sampleEmbed, sampleOther]⟩
    [sampleImage, sampleEmbed, sampleOther] (by decide) rfl
  have h4 := h.2.2.2 1 sampleEmbed (by rfl)
  exact ⟨h.1, h.2.2.1, h4.1, h4.2⟩

/-- C6: for a video item whose truthy URL contains the substring embed,
the modal media block is the embed fragment whose fallback link target is
`watchUrl`; when the embed-id regex captures an identifier, that target
is the YouTube watch URL built from it — and the identifier is a
nonempty run of id characters occurring in the URL right after embed/ —
while when no identifier can be captured (for example a URL ending in
embed/ with nothing after it) the target is the original URL verbatim. -/
theorem claim6_embed_watch_link (item : Item) (u : String) (hu : item.url = some u)
    (hne : u ≠ "") (hmt : item.media_type = some "video")
    (hemb : containsSubstr u "embed" = true) :
    modalMediaHTML item = videoEmbedHTML u (modalTitle item) ∧
    (∀ vid, extractVideoId u = some vid →
      watchUrl u = "https://www.youtube.com/watch?v=" ++ vid ∧ vid ≠ "" ∧
      vid.data.all isIdChar = true ∧ containsSubstr u ("embed/" ++ vid) = true) ∧
    (extractVideoId u = none → watchUrl u = u) := by
  refine ⟨?_, ?_, fun h => by simp [watchUrl, h]⟩
  · simp [modalMediaHTML, hmt, hu, jsOr_of_some_ne _ _ hne, hemb, jsTruthy, hne]
  · intro vid hvid
    refine ⟨by simp [watchUrl, hvid], ?_, ?_, ?_⟩
    · obtain ⟨run, hrun, hmk⟩ := Option.map_eq_some'.mp hvid
      have := (findEmbedId_spec u.data run hrun).1
      intro hcon
      rw [← hmk] at hcon
      exact this (by simpa [String.mk] using congrArg String.data hcon)
    · obtain ⟨run, hrun, hmk⟩ := Option.map_eq_some'.mp hvid
      have := (findEmbedId_spec u.data run hrun).2.1
      rw [← hmk]
      simpa using this
    · obtain ⟨run, hrun, hmk⟩ := Option.map_eq_some'.mp hvid
      have := (findEmbedId_spec u.data run hrun).2.2
      rw [← hmk]
      unfold containsSubstr
      simpa using this

theorem claim6_witness :
    watchUrl "https://www.youtube.com/embed/abc123" =
      "https://www.youtube.com/watch?v=" ++ "abc123" ∧
    watchUrl "https://www.youtube.com/embed/" = "https://www.youtube.com/embed/" :=
  ⟨((claim6_embed_watch_link sampleEmbed _ rfl (by decide) rfl (by decide)).2.1 "abc123"
      (by decide)).1,
   (claim6_embed_watch_link sampleEmbedNoId _ rfl (by decide) rfl (by decide)).2.2 (by decide)⟩

/-- C8: the gallery selection dispatch opens the modal with an item if
and only if the event hit a card whose data-index attribute parses to a
non-negative integer that indexes an item of the current list, and then
with exactly that item; in every other case — no card, unparsable,
negative, stale or out-of-range index — it is a silent no-op. -/
theorem claim8_selection_dispatch (items : List Item) (t : Option CardTarget) (it : Item) :
    galleryActivate items t = some it ↔
      ∃ card k, t = some card ∧ jsParseInt card.dataIndex = JsNumber.int k ∧ 0 ≤ k ∧
        items[k.toNat]? = some it := by
  constructor
  · intro h
    cases t with
    | none => simp [galleryActivate] at h
    | some card =>
      simp only [galleryActivate] at h
      cases hp : jsParseInt card.dataIndex with
      | nan => rw [hp] at h; simp [jsIndex] at h
      | int i =>
        rw [hp] at h
        simp only [jsIndex] at h
        by_cases hi : i < 0
        · rw [if_pos hi] at h; exact absurd h (by simp)
        · rw [if_neg hi] at h
          exact ⟨card, i, rfl, hp, by omega, by simpa [List.get?_eq_getElem?] using h⟩
  · rintro ⟨card, k, rfl, hp, hk, hg⟩
    simp only [galleryActivate, hp, jsIndex]
    rw [if_neg (by omega)]
    simpa [List.get?_eq_getElem?] using hg

theorem claim8_witness :
    galleryActivate [sampleImage] (some ⟨"0"⟩) = some sampleImage ∧
    galleryActivate [sampleImage] (some ⟨"5"⟩) = none ∧
    galleryActivate [sampleImage] none = none := by
  refine ⟨(claim8_selection_dispatch [sampleImage] (some ⟨"0"⟩) sampleImage).mpr
    ⟨⟨"0"⟩, 0, rfl, by decide, by decide, rfl⟩, by decide, rfl⟩

end NasaExplorer
